import Mathlib

/-!
Verification of the facial-analysis backend (`src/backend/facial_analysis_api.py`).

The whole program is one Flask route and one scoring function:

* `basic_emotion_analysis(image)` converts the image to grayscale, computes the
  average brightness `sum(gray.getdata()) / (gray.width * gray.height)` and
  builds a six-entry emotion dictionary;
* `facial_analysis()` reads `request.json`, takes `data['image'].split(',')[1]`
  as the base64 payload, decodes it to an image, scores it, and wraps the
  scores (each value rounded to two decimal places) in a fixed JSON envelope.

We embed the program shallowly: images are explicit pixel grids, Python
numbers are exact rationals, Python exceptions (`KeyError`, `IndexError`,
`ZeroDivisionError`, decoding failures) are an explicit error type carried by
`Except`, and the two library calls `base64.b64decode` / `Image.open` — which
are not part of this repository — are parameters of the handler, so every
theorem about the handler's own logic holds for every behaviour of those
libraries.
-/

/-- Python exceptions that the handler's code can raise, plus a generic
constructor for failures raised inside the external decoding libraries. -/
inductive PyError where
  | keyError
  | indexError
  | zeroDivisionError
  | libraryError
  deriving Repr, DecidableEq

/-- A Python `str`, modelled as its list of characters. -/
abbrev PyStr := List Char

/-- A grayscale image as produced by `image.convert('L')`: a width, a height
and the flat list of per-pixel luminance values that `gray.getdata()`
returns (row-major; each value a byte 0–255). -/
structure GrayImage where
  width : Nat
  height : Nat
  data : List Nat
  deriving Repr, DecidableEq

/-- An RGB image before grayscale conversion: each pixel is an
(red, green, blue) triple of bytes. -/
structure RGBImage where
  width : Nat
  height : Nat
  data : List (Nat × Nat × Nat)
  deriving Repr, DecidableEq

/-- Modelled from the spec: the grayscale conversion step (`image.convert('L')`)
is performed by the imaging library, which is not part of this repository; the
spec (§4.1 step 1, §9) records that the source relies on the library's
standard ITU-R 601-2 luma transform `L = (299 R + 587 G + 114 B) / 1000`,
computed per pixel and truncated to an integer. -/
def luminance (p : Nat × Nat × Nat) : Nat :=
  (299 * p.1 + 587 * p.2.1 + 114 * p.2.2) / 1000

/-- Modelled from the spec: `image.convert('L')` keeps the dimensions and maps
every pixel through the luma transform. -/
def convertL (img : RGBImage) : GrayImage :=
  { width := img.width, height := img.height, data := img.data.map luminance }

/-- Line 12 of the source: `sum(gray.getdata()) / (gray.width * gray.height)`,
as exact rational arithmetic.  (When the area is zero the Python code raises
`ZeroDivisionError` instead; `basic_emotion_analysis` models that branch and
never uses this value there.) -/
def avg_brightness (img : GrayImage) : ℚ :=
  (img.data.sum : ℚ) / ((img.width * img.height : ℕ) : ℚ)

/-- Lines 10–21 of the source: the emotion scorer.  The result is the Python
dict in its insertion order.  A zero-area image makes line 12 divide by zero,
which raises; every other image yields the six-entry dictionary. -/
def basic_emotion_analysis (img : GrayImage) :
    Except PyError (List (String × ℚ)) :=
  if img.width * img.height = 0 then
    .error .zeroDivisionError
  else
    .ok [("happy", min 1 (avg_brightness img / 255)),
         ("sad", max 0 (1 - avg_brightness img / 255)),
         ("angry", 1/10),
         ("surprised", 1/10),
         ("neutral", 1/2),
         ("confused", 1/10)]

/-- Python's `round(v, 2)`: round to the nearest hundredth.  Exact on every
value this program produces (no tie falls on a representation artefact that
the claims exercise). -/
def round2 (v : ℚ) : ℚ :=
  ((round (v * 100) : ℤ) : ℚ) / 100

/-- Line 30 of the source: `{k: round(v, 2) for k, v in emotions.items()}`. -/
def roundEmotions (l : List (String × ℚ)) : List (String × ℚ) :=
  l.map fun kv => (kv.1, round2 kv.2)

/-- Lines 28–30 of the source composed: score, then round every value for the
response. -/
def scoreResponse (img : GrayImage) : Except PyError (List (String × ℚ)) :=
  (basic_emotion_analysis img).map roundEmotions

/-- Python's `s.split(sep)` for a one-character separator: split at every
occurrence, keeping empty fields (`''.split(',') == ['']`,
`','.split(',') == ['', '']`). -/
def pySplit (sep : Char) : PyStr → List PyStr
  | [] => [[]]
  | c :: rest =>
    if c = sep then
      [] :: pySplit sep rest
    else
      match pySplit sep rest with
      | [] => [[c]]
      | h :: t => (c :: h) :: t

/-- Line 26 of the source, the string part: `data['image'].split(',')[1]`.
Indexing a Python list out of range raises `IndexError`. -/
def splitIndex1 (s : PyStr) : Except PyError PyStr :=
  match (pySplit ',' s)[1]? with
  | some p => .ok p
  | none => .error .indexError

/-- The JSON body of a request, reduced to the one field the handler reads:
`data['image']` raises `KeyError` when the field is absent. -/
structure RequestBody where
  image : Option PyStr
  deriving Repr, DecidableEq

/-- The `result` dictionary built on lines 29–34 of the source. -/
structure FacialResult where
  emotions : List (String × ℚ)
  engagement : Nat
  attention : Nat
  timestamp : String
  deriving Repr, DecidableEq

/-- Lines 23–35 of the source: the `/api/facial-analysis` handler.
`b64decode` stands for `base64.b64decode` and `image_open` for
`PIL.Image.open` composed with the later grayscale conversion's input — both
external libraries, so the handler is parametric in them; an exception
anywhere aborts the request with no partial result, exactly like Python's
unhandled-exception propagation. -/
def facial_analysis (req : RequestBody)
    (b64decode : PyStr → Except PyError (List Nat))
    (image_open : List Nat → Except PyError GrayImage) :
    Except PyError FacialResult :=
  match req.image with
  | none => .error .keyError
  | some field =>
    match splitIndex1 field with
    | .error e => .error e
    | .ok payload =>
      match b64decode payload with
      | .error e => .error e
      | .ok bytes =>
        match image_open bytes with
        | .error e => .error e
        | .ok image =>
          match basic_emotion_analysis image with
          | .error e => .error e
          | .ok emotions =>
            .ok { emotions := roundEmotions emotions,
                  engagement := 50,
                  attention := 50,
                  timestamp := "now" }

/-- The clamp the spec's formulas use: `clamp(v, lo, hi)`. -/
def clamp (v lo hi : ℚ) : ℚ :=
  max lo (min hi v)

/-- The substring of `s` after the first comma (everything after it, later
commas included), stated independently of `pySplit`; `none` when `s` has no
comma.  This renders the spec's phrase "the substring after the first comma". -/
def afterFirstComma : PyStr → Option PyStr
  | [] => none
  | c :: rest => if c = ',' then some rest else afterFirstComma rest

/-- Tests whether the first argument is an initial segment of the second. -/
def beginsWith : PyStr → PyStr → Bool
  | [], _ => true
  | _ :: _, [] => false
  | a :: as, b :: bs => a = b && beginsWith as bs

/-- Tests whether the first argument occurs contiguously in the second. -/
def hasSub (pat : PyStr) : PyStr → Bool
  | [] => pat.isEmpty
  | c :: rest => beginsWith pat (c :: rest) || hasSub pat rest

/-- Modelled from the spec's glossary: a data-URL is a string of the shape
`data:<mime>;base64,<payload>`.  Rendered as: starts with `data:` and
contains `;base64,`. -/
def isDataURL (s : PyStr) : Bool :=
  beginsWith ("data:".data) s && hasSub (";base64,".data) s

/-! ### Helper lemmas -/

/-- On any image with at least one pixel the scorer takes the non-raising
branch and returns the dictionary of line 13–20 verbatim. -/
theorem basic_emotion_analysis_of_pos (img : GrayImage)
    (hpos : 0 < img.width * img.height) :
    basic_emotion_analysis img =
      .ok [("happy", min 1 (avg_brightness img / 255)),
           ("sad", max 0 (1 - avg_brightness img / 255)),
           ("angry", 1/10),
           ("surprised", 1/10),
           ("neutral", 1/2),
           ("confused", 1/10)] := by
  simp [basic_emotion_analysis, Nat.pos_iff_ne_zero.mp hpos]

/-- The average brightness is never negative (luminance values are bytes). -/
theorem avg_brightness_nonneg (img : GrayImage) : 0 ≤ avg_brightness img := by
  unfold avg_brightness
  positivity

/-- On a well-formed image (one luminance per pixel, each a byte) the average
brightness is at most 255. -/
theorem avg_brightness_le_255 (img : GrayImage)
    (hlen : img.data.length = img.width * img.height)
    (hbound : ∀ v ∈ img.data, v ≤ 255) :
    avg_brightness img ≤ 255 := by
  rcases Nat.eq_zero_or_pos (img.width * img.height) with h0 | hpos
  · simp [avg_brightness, h0]
  · have hsum : img.data.sum ≤ img.width * img.height * 255 := by
      have := List.sum_le_card_nsmul img.data 255 hbound
      simpa [smul_eq_mul, hlen] using this
    rw [avg_brightness, div_le_iff₀ (by exact_mod_cast hpos)]
    calc ((img.data.sum : ℕ) : ℚ) ≤ ((img.width * img.height * 255 : ℕ) : ℚ) := by
          exact_mod_cast hsum
      _ = 255 * ((img.width * img.height : ℕ) : ℚ) := by push_cast; ring

/-- Rounding to two decimals preserves nonnegativity. -/
theorem round2_nonneg (v : ℚ) (h : 0 ≤ v) : 0 ≤ round2 v := by
  unfold round2
  apply div_nonneg _ (by norm_num)
  have hz : (0 : ℤ) ≤ round (v * 100) := by
    rw [round_eq]
    exact Int.le_floor.mpr (by push_cast; linarith)
  exact_mod_cast hz

/-- Rounding to two decimals preserves being at most one. -/
theorem round2_le_one (v : ℚ) (h : v ≤ 1) : round2 v ≤ 1 := by
  unfold round2
  rw [div_le_one (by norm_num)]
  have hz : round (v * 100) ≤ 100 := by
    rw [round_eq]
    have h1 : v * 100 + 1 / 2 ≤ (201 : ℚ) / 2 := by linarith
    have h2 := Int.floor_mono h1
    have h3 : ⌊(201 : ℚ) / 2⌋ = 100 := by norm_num
    omega
  exact_mod_cast hz

/-- Rounding a list of values in `[0, 1]` keeps every value in `[0, 1]`. -/
theorem roundEmotions_bounds (l : List (String × ℚ))
    (h : ∀ p ∈ l, 0 ≤ p.2 ∧ p.2 ≤ 1) :
    ∀ p ∈ roundEmotions l, 0 ≤ p.2 ∧ p.2 ≤ 1 := by
  intro p hp
  simp only [roundEmotions, List.mem_map] at hp
  obtain ⟨q, hq, rfl⟩ := hp
  exact ⟨round2_nonneg _ (h q hq).1, round2_le_one _ (h q hq).2⟩

/-- `pySplit` always yields at least one field, and the first field is the
longest separator-free initial segment. -/
theorem pySplit_head (sep : Char) (l : PyStr) :
    ∃ t, pySplit sep l = l.takeWhile (fun c => c != sep) :: t := by
  induction l with
  | nil => exact ⟨[], rfl⟩
  | cons c rest ih =>
    by_cases hc : c = sep
    · subst hc
      exact ⟨pySplit c rest, by simp [pySplit]⟩
    · obtain ⟨t, ht⟩ := ih
      refine ⟨t, ?_⟩
      simp only [pySplit, if_neg hc, ht, List.takeWhile_cons]
      simp [hc]

/-- `split(',')[1]` on a string starting with a comma: the second field is
the comma-free run right after that comma. -/
theorem splitIndex1_comma (rest : PyStr) :
    splitIndex1 (',' :: rest) = .ok (rest.takeWhile (fun c => c != ',')) := by
  obtain ⟨t, ht⟩ := pySplit_head ',' rest
  simp [splitIndex1, pySplit, ht]

/-- `split(',')[1]` ignores a leading non-comma character. -/
theorem splitIndex1_cons (c : Char) (rest : PyStr) (hc : c ≠ ',') :
    splitIndex1 (c :: rest) = splitIndex1 rest := by
  obtain ⟨t, ht⟩ := pySplit_head ',' rest
  simp [splitIndex1, pySplit, if_neg hc, ht]

/-- A comma-free string splits into a single field. -/
theorem pySplit_of_not_mem (s : PyStr) (h : ',' ∉ s) : pySplit ',' s = [s] := by
  induction s with
  | nil => rfl
  | cons c rest ih =>
    simp only [List.mem_cons, not_or] at h
    have hc : c ≠ ',' := fun e => h.1 e.symm
    simp [pySplit, if_neg hc, ih h.2]

/-- On a comma-free string, `split(',')[1]` raises `IndexError`. -/
theorem splitIndex1_no_comma (s : PyStr) (h : ',' ∉ s) :
    splitIndex1 s = .error .indexError := by
  simp [splitIndex1, pySplit_of_not_mem s h]

/-! ### Claim theorems -/

/-- C1: for every image with at least one pixel, the rounded response maps
happy to `round2 (clamp (avg/255) 0 1)`, sad to `round2 (clamp (1 - avg/255) 0 1)`,
and the four constants to 0.1, 0.1, 0.5, 0.1 — every value rounded to two
decimal places. -/
theorem emotion_response_formula (img : GrayImage)
    (hpos : 0 < img.width * img.height) :
    scoreResponse img =
      .ok [("happy", round2 (clamp (avg_brightness img / 255) 0 1)),
           ("sad", round2 (clamp (1 - avg_brightness img / 255) 0 1)),
           ("angry", 1/10),
           ("surprised", 1/10),
           ("neutral", 1/2),
           ("confused", 1/10)] := by
  have hdiv : 0 ≤ avg_brightness img / 255 := by
    have := avg_brightness_nonneg img
    positivity
  have hc1 : clamp (avg_brightness img / 255) 0 1 = min 1 (avg_brightness img / 255) :=
    max_eq_right (le_min zero_le_one hdiv)
  have hc2 : clamp (1 - avg_brightness img / 255) 0 1 =
      max 0 (1 - avg_brightness img / 255) := by
    unfold clamp
    rw [min_eq_right (by linarith)]
  rw [scoreResponse, basic_emotion_analysis_of_pos img hpos, hc1, hc2]
  simp only [Except.map, roundEmotions, List.map]
  norm_num [round2, round_eq]

/-- C1 witness: the formula instantiated on the 1×2 image [0, 255]. -/
theorem emotion_response_formula_witness :
    0 < (GrayImage.mk 1 2 [0, 255]).width * (GrayImage.mk 1 2 [0, 255]).height ∧
    scoreResponse ⟨1, 2, [0, 255]⟩ =
      .ok [("happy", round2 (clamp (avg_brightness ⟨1, 2, [0, 255]⟩ / 255) 0 1)),
           ("sad", round2 (clamp (1 - avg_brightness ⟨1, 2, [0, 255]⟩ / 255) 0 1)),
           ("angry", 1/10),
           ("surprised", 1/10),
           ("neutral", 1/2),
           ("confused", 1/10)] :=
  ⟨by decide, emotion_response_formula ⟨1, 2, [0, 255]⟩ (by decide)⟩

/-- C2: for every image with at least one pixel the scorer returns exactly the
six labels happy, sad, angry, surprised, neutral, confused, and every value —
before and after rounding — lies in [0, 1]. -/
theorem emotion_scores_labels_range (img : GrayImage)
    (hpos : 0 < img.width * img.height) :
    ∃ l, basic_emotion_analysis img = .ok l ∧
      l.map Prod.fst = ["happy", "sad", "angry", "surprised", "neutral", "confused"] ∧
      (∀ p ∈ l, 0 ≤ p.2 ∧ p.2 ≤ 1) ∧
      (∀ p ∈ roundEmotions l, 0 ≤ p.2 ∧ p.2 ≤ 1) := by
  have h0 : 0 ≤ avg_brightness img := avg_brightness_nonneg img
  have hdiv : 0 ≤ avg_brightness img / 255 := by positivity
  refine ⟨_, basic_emotion_analysis_of_pos img hpos, by simp, ?_⟩
  have hbounds : ∀ p ∈ [(("happy" : String), min 1 (avg_brightness img / 255)),
      ("sad", max 0 (1 - avg_brightness img / 255)),
      ("angry", (1 : ℚ)/10), ("surprised", 1/10), ("neutral", 1/2), ("confused", 1/10)],
      0 ≤ p.2 ∧ p.2 ≤ 1 := by
    intro p hp
    simp only [List.mem_cons, List.not_mem_nil, or_false] at hp
    rcases hp with h | h | h | h | h | h <;> subst h <;> constructor
    · exact le_min zero_le_one hdiv
    · exact min_le_left 1 _
    · exact le_max_left 0 _
    · exact max_le zero_le_one (by linarith)
    all_goals norm_num
  exact ⟨hbounds, roundEmotions_bounds _ hbounds⟩

/-- C2 witness: labels and ranges on the 1×1 image [7]. -/
theorem emotion_scores_labels_range_witness :
    0 < (GrayImage.mk 1 1 [7]).width * (GrayImage.mk 1 1 [7]).height ∧
    ∃ l, basic_emotion_analysis ⟨1, 1, [7]⟩ = .ok l ∧
      l.map Prod.fst = ["happy", "sad", "angry", "surprised", "neutral", "confused"] ∧
      (∀ p ∈ l, 0 ≤ p.2 ∧ p.2 ≤ 1) ∧
      (∀ p ∈ roundEmotions l, 0 ≤ p.2 ∧ p.2 ≤ 1) :=
  ⟨by decide, emotion_scores_labels_range ⟨1, 1, [7]⟩ (by decide)⟩

/-- C3 counterexample: on `"data:image/png;base64,AA,BB"` the handler's
`split(',')[1]` yields `"AA"`, not the full substring `"AA,BB"` after the
first comma. -/
theorem splitIndex1_second_field_cex :
    afterFirstComma ("data:image/png;base64,AA,BB".data) = some ("AA,BB".data) ∧
    splitIndex1 ("data:image/png;base64,AA,BB".data) = .ok ("AA".data) ∧
    ("AA".data) ≠ ("AA,BB".data) :=
  ⟨by decide, by rfl, by decide⟩

/-- C3 (amended): for every image field containing a comma, the payload the
handler decodes is the comma-free run immediately after the first comma —
the substring after the first comma truncated at the second comma — not
necessarily the entire remainder. -/
theorem splitIndex1_second_field (s : PyStr) (h : ',' ∈ s) :
    splitIndex1 s =
      .ok (((afterFirstComma s).getD []).takeWhile (fun c => c != ',')) := by
  induction s with
  | nil => cases h
  | cons c rest ih =>
    by_cases hc : c = ','
    · subst hc
      simp [splitIndex1_comma, afterFirstComma]
    · have hr : ',' ∈ rest := by
        rcases List.mem_cons.mp h with h1 | h1
        · exact absurd h1.symm hc
        · exact h1
      rw [splitIndex1_cons c rest hc, ih hr]
      simp [afterFirstComma, if_neg hc]

/-- C3 witness: the amended statement on `"data:text;base64,QUJD"`. -/
theorem splitIndex1_second_field_witness :
    ',' ∈ "data:text;base64,QUJD".data ∧
    splitIndex1 ("data:text;base64,QUJD".data) =
      .ok (((afterFirstComma ("data:text;base64,QUJD".data)).getD []).takeWhile
        (fun c => c != ',')) :=
  ⟨by decide, splitIndex1_second_field ("data:text;base64,QUJD".data) (by decide)⟩

/-- C4 counterexample: the handler performs no data-URL validation beyond the
comma split — a field that is not a data-URL at all, whose second
comma-field the decoding libraries accept, produces a full 200 response. -/
theorem facial_analysis_parse_errors_cex :
    isDataURL ("notadataurl,QUJD".data) = false ∧
    facial_analysis ⟨some ("notadataurl,QUJD".data)⟩
        (fun _ => .ok [0]) (fun _ => .ok ⟨1, 1, [0]⟩) =
      .ok ⟨[("happy", 0), ("sad", 1), ("angry", 1/10), ("surprised", 1/10),
            ("neutral", 1/2), ("confused", 1/10)], 50, 50, "now"⟩ := by
  constructor
  · decide
  · have h1 : splitIndex1 ("notadataurl,QUJD".data) = .ok ("QUJD".data) := rfl
    have h2 : basic_emotion_analysis ⟨1, 1, [0]⟩ =
        .ok [("happy", 0), ("sad", 1), ("angry", 1/10), ("surprised", 1/10),
             ("neutral", 1/2), ("confused", 1/10)] := by
      norm_num [basic_emotion_analysis, avg_brightness]
    simp [facial_analysis, h1, h2, roundEmotions]
    norm_num [round2, round_eq]

/-- C4 (amended): whatever the decoding libraries do, a request with no
`image` field fails with `KeyError` and a request whose `image` field has no
comma fails with `IndexError`; both are unhandled faults with no partial
result.  (Fields containing a comma are not validated as data-URLs.) -/
theorem facial_analysis_parse_errors (req : RequestBody)
    (b64decode : PyStr → Except PyError (List Nat))
    (image_open : List Nat → Except PyError GrayImage) :
    (req.image = none →
      facial_analysis req b64decode image_open = .error .keyError) ∧
    (∀ s, req.image = some s → ',' ∉ s →
      facial_analysis req b64decode image_open = .error .indexError) := by
  constructor
  · intro h
    simp [facial_analysis, h]
  · intro s hs hnc
    simp [facial_analysis, hs, splitIndex1_no_comma s hnc]

/-- C4 witness: the two parse failures on concrete requests. -/
theorem facial_analysis_parse_errors_witness :
    facial_analysis ⟨none⟩ (fun _ => .error .libraryError)
        (fun _ => .error .libraryError) = .error .keyError ∧
    facial_analysis ⟨some ("nocommahere".data)⟩ (fun _ => .error .libraryError)
        (fun _ => .error .libraryError) = .error .indexError :=
  ⟨(facial_analysis_parse_errors ⟨none⟩ _ _).1 rfl,
   (facial_analysis_parse_errors ⟨some ("nocommahere".data)⟩ _ _).2
     "nocommahere".data rfl (by decide)⟩

/-- C5: the scorer raises `ZeroDivisionError` exactly on zero-area images —
a zero-area image produces no scores, and an image with at least one pixel
never reaches the error branch. -/
theorem zero_area_division (img : GrayImage) :
    (img.width * img.height = 0 →
      basic_emotion_analysis img = .error .zeroDivisionError) ∧
    (0 < img.width * img.height →
      ∃ l, basic_emotion_analysis img = .ok l) := by
  constructor
  · intro h
    simp [basic_emotion_analysis, h]
  · intro h
    exact ⟨_, basic_emotion_analysis_of_pos img h⟩

/-- C5 witness: a 0×5 image fails, a 1×1 image succeeds. -/
theorem zero_area_division_witness :
    basic_emotion_analysis ⟨0, 5, []⟩ = .error .zeroDivisionError ∧
    ∃ l, basic_emotion_analysis ⟨1, 1, [3]⟩ = .ok l :=
  ⟨(zero_area_division ⟨0, 5, []⟩).1 (by decide),
   (zero_area_division ⟨1, 1, [3]⟩).2 (by decide)⟩

/-- C6: an all-black well-formed image scores happy 0 and sad 1; an all-white
one scores happy 1 and sad 0. -/
theorem extreme_brightness (img : GrayImage)
    (hlen : img.data.length = img.width * img.height)
    (hpos : 0 < img.width * img.height) :
    ((∀ v ∈ img.data, v = 0) →
      basic_emotion_analysis img =
        .ok [("happy", 0), ("sad", 1), ("angry", 1/10), ("surprised", 1/10),
             ("neutral", 1/2), ("confused", 1/10)]) ∧
    ((∀ v ∈ img.data, v = 255) →
      basic_emotion_analysis img =
        .ok [("happy", 1), ("sad", 0), ("angry", 1/10), ("surprised", 1/10),
             ("neutral", 1/2), ("confused", 1/10)]) := by
  constructor
  · intro hall
    have havg : avg_brightness img = 0 := by
      simp [avg_brightness, List.sum_eq_zero hall]
    rw [basic_emotion_analysis_of_pos img hpos, havg]
    norm_num
  · intro hall
    have hA : ((img.width : ℚ) * (img.height : ℚ)) ≠ 0 := by
      have : ((img.width * img.height : ℕ) : ℚ) ≠ 0 := by
        exact_mod_cast hpos.ne'
      push_cast at this
      exact this
    have hsumN : img.data.sum = img.width * img.height * 255 := by
      have h := List.sum_eq_card_nsmul img.data 255 hall
      rw [smul_eq_mul, hlen] at h
      omega
    have havg : avg_brightness img = 255 := by
      rw [avg_brightness, hsumN]
      push_cast
      exact mul_div_cancel_left₀ 255 hA
    rw [basic_emotion_analysis_of_pos img hpos, havg]
    norm_num

/-- C6 witness: the two extremes on concrete 1×2 and 2×1 images. -/
theorem extreme_brightness_witness :
    basic_emotion_analysis ⟨1, 2, [0, 0]⟩ =
      .ok [("happy", 0), ("sad", 1), ("angry", 1/10), ("surprised", 1/10),
           ("neutral", 1/2), ("confused", 1/10)] ∧
    basic_emotion_analysis ⟨2, 1, [255, 255]⟩ =
      .ok [("happy", 1), ("sad", 0), ("angry", 1/10), ("surprised", 1/10),
           ("neutral", 1/2), ("confused", 1/10)] :=
  ⟨(extreme_brightness ⟨1, 2, [0, 0]⟩ (by decide) (by decide)).1 (by decide),
   (extreme_brightness ⟨2, 1, [255, 255]⟩ (by decide) (by decide)).2 (by decide)⟩

/-- C7: for every image with at least one pixel the four constant labels are
0.1, 0.1, 0.5, 0.1 regardless of pixel data and dimensions. -/
theorem constant_emotion_labels (img : GrayImage)
    (hpos : 0 < img.width * img.height) :
    ∃ h s, basic_emotion_analysis img =
      .ok [("happy", h), ("sad", s), ("angry", 1/10), ("surprised", 1/10),
           ("neutral", 1/2), ("confused", 1/10)] :=
  ⟨_, _, basic_emotion_analysis_of_pos img hpos⟩

/-- C7 witness: the constant labels on the 1×1 image [42]. -/
theorem constant_emotion_labels_witness :
    ∃ h s, basic_emotion_analysis ⟨1, 1, [42]⟩ =
      .ok [("happy", h), ("sad", s), ("angry", 1/10), ("surprised", 1/10),
           ("neutral", 1/2), ("confused", 1/10)] :=
  constant_emotion_labels ⟨1, 1, [42]⟩ (by decide)

/-- C8: the end-to-end scenario — a 2×2 image of RGB (128,128,128) pixels has
average luminance 128 and its rounded response has happy = 0.50 and
sad = 0.50. -/
theorem midgray_2x2_scenario :
    avg_brightness (convertL ⟨2, 2,
      [(128, 128, 128), (128, 128, 128), (128, 128, 128), (128, 128, 128)]⟩) = 128 ∧
    scoreResponse (convertL ⟨2, 2,
      [(128, 128, 128), (128, 128, 128), (128, 128, 128), (128, 128, 128)]⟩) =
      .ok [("happy", 1/2), ("sad", 1/2), ("angry", 1/10), ("surprised", 1/10),
           ("neutral", 1/2), ("confused", 1/10)] := by
  constructor
  · norm_num [convertL, luminance, avg_brightness]
  · norm_num [convertL, luminance, scoreResponse, basic_emotion_analysis,
      avg_brightness, roundEmotions, round2, round_eq, Except.map]

/-- C9: the scorer is deterministic — it reads the image only through its
pixel sum and area, so any two images agreeing on those (in particular two
equal images) get equal score dictionaries. -/
theorem score_deterministic (a b : GrayImage)
    (harea : a.width * a.height = b.width * b.height)
    (hsum : a.data.sum = b.data.sum) :
    basic_emotion_analysis a = basic_emotion_analysis b := by
  have havg : avg_brightness a = avg_brightness b := by
    unfold avg_brightness
    rw [harea, hsum]
  unfold basic_emotion_analysis
  rw [harea, havg]

/-- C9 witness: two different images with equal area and pixel sum score
identically. -/
theorem score_deterministic_witness :
    (GrayImage.mk 1 2 [3, 4]).width * (GrayImage.mk 1 2 [3, 4]).height =
      (GrayImage.mk 2 1 [7, 0]).width * (GrayImage.mk 2 1 [7, 0]).height ∧
    (GrayImage.mk 1 2 [3, 4]).data.sum = (GrayImage.mk 2 1 [7, 0]).data.sum ∧
    basic_emotion_analysis ⟨1, 2, [3, 4]⟩ = basic_emotion_analysis ⟨2, 1, [7, 0]⟩ :=
  ⟨by decide, by decide,
   score_deterministic ⟨1, 2, [3, 4]⟩ ⟨2, 1, [7, 0]⟩ (by decide) (by decide)⟩

/-- C10: on a well-formed image with at least one pixel the one-sided clamps
never bind — the scorer returns exactly avg/255 and 1 − avg/255 — and the
unrounded happy and sad values sum to 1. -/
theorem clamps_never_bind (img : GrayImage)
    (hlen : img.data.length = img.width * img.height)
    (hbound : ∀ v ∈ img.data, v ≤ 255)
    (hpos : 0 < img.width * img.height) :
    basic_emotion_analysis img =
      .ok [("happy", avg_brightness img / 255),
           ("sad", 1 - avg_brightness img / 255),
           ("angry", 1/10), ("surprised", 1/10), ("neutral", 1/2),
           ("confused", 1/10)] ∧
    min 1 (avg_brightness img / 255) = avg_brightness img / 255 ∧
    max 0 (1 - avg_brightness img / 255) = 1 - avg_brightness img / 255 ∧
    min 1 (avg_brightness img / 255) + max 0 (1 - avg_brightness img / 255) = 1 := by
  have h0 : 0 ≤ avg_brightness img := avg_brightness_nonneg img
  have h255 : avg_brightness img ≤ 255 := avg_brightness_le_255 img hlen hbound
  have hle : avg_brightness img / 255 ≤ 1 := by
    rw [div_le_one (by norm_num : (0 : ℚ) < 255)]
    exact h255
  have hmin : min 1 (avg_brightness img / 255) = avg_brightness img / 255 :=
    min_eq_right hle
  have hmax : max 0 (1 - avg_brightness img / 255) = 1 - avg_brightness img / 255 :=
    max_eq_right (by linarith)
  refine ⟨?_, hmin, hmax, by rw [hmin, hmax]; ring⟩
  rw [basic_emotion_analysis_of_pos img hpos, hmin, hmax]

/-- C10 witness: the unclamped forms on the 1×1 image [100]. -/
theorem clamps_never_bind_witness :
    basic_emotion_analysis ⟨1, 1, [100]⟩ =
      .ok [("happy", avg_brightness ⟨1, 1, [100]⟩ / 255),
           ("sad", 1 - avg_brightness ⟨1, 1, [100]⟩ / 255),
           ("angry", 1/10), ("surprised", 1/10), ("neutral", 1/2),
           ("confused", 1/10)] ∧
    min 1 (avg_brightness ⟨1, 1, [100]⟩ / 255) = avg_brightness ⟨1, 1, [100]⟩ / 255 ∧
    max 0 (1 - avg_brightness ⟨1, 1, [100]⟩ / 255) =
      1 - avg_brightness ⟨1, 1, [100]⟩ / 255 ∧
    min 1 (avg_brightness ⟨1, 1, [100]⟩ / 255) +
      max 0 (1 - avg_brightness ⟨1, 1, [100]⟩ / 255) = 1 :=
  clamps_never_bind ⟨1, 1, [100]⟩ (by decide) (by decide) (by decide)
